import Mathlib

/-!
Verification development for the `google-map-tiles` TypeScript library:
a client for the Google Maps Tiles API v1 (`src/tiles.ts`), a MapLibre
plugin wiring the tiles, an attribution control and a logo control into a
map (`src/maplibre_plugin.ts`), and a standalone logo control
(`src/src/logo_control.ts`).

The embedding is shallow: the HTTP layer is represented by passing the
result that `fetch` would produce (a transport failure, or a response with
an `ok` flag, a status text and a parsed JSON body) as an explicit
argument, and each client method is a pure function of the client state
and that fetch result.  Methods that perform a network request also return
the list of requests they issued, so that "no network request is made" is
a provable statement.  Thrown `Error`s become `Except.error` carrying the
error's message string.
-/

namespace GoogleMapTilesLib

/-- `API_BASE_URL` from `src/tiles.ts`. -/
def API_BASE_URL : String := "https://tile.googleapis.com"

/-- `ZoomRectangle` from `src/tiles.ts`.  Geographic degrees are modelled
as rationals (the JS `number` values occurring here are exact decimals). -/
structure ZoomRectangle where
  maxZoom : Int
  north : ℚ
  south : ℚ
  east : ℚ
  west : ℚ
deriving DecidableEq, Repr

/-- `ViewportResponse` from `src/tiles.ts`. -/
structure ViewportResponse where
  copyright : String
  maxZoomRects : List ZoomRectangle
deriving DecidableEq, Repr

/-- `MapType` from `src/tiles.ts`: a string enum. -/
inductive MapType where
  | roadmap
  | satellite
  | terrain
  | streetview
deriving DecidableEq, Repr

/-- The string value of a `MapType` enum member. -/
def MapType.value : MapType → String
  | .roadmap => "roadmap"
  | .satellite => "satellite"
  | .terrain => "terrain"
  | .streetview => "streetview"

/-- `SessionOptions` from `src/tiles.ts`.  `mapType` is carried as its
string value (the TS type admits both the enum and its template-literal
strings); optional fields are `Option`s.  The `styles` field has TS type
`Array<unknown>`; its elements are opaque to the library, modelled here as
an opaque tag per entry. -/
structure SessionOptions where
  mapType : String
  language : String
  region : String
  imageFormat : Option String := none
  scale : Option String := none
  highDpi : Option Bool := none
  layerTypes : Option (List String) := none
  styles : Option (List String) := none
  overlay : Option Bool := none
  apiOptions : Option (List String) := none
deriving DecidableEq, Repr

/-- `SessionResponse` from `src/tiles.ts`. -/
structure SessionResponse where
  session : String
  expiry : String
  tileWidth : Nat
  tileHeight : Nat
  imageFormat : String
deriving DecidableEq, Repr

/-- The state of a `GoogleMapTiles` client (`src/tiles.ts`): the API key
and the active session, `null` until `createSession` succeeds. -/
structure GoogleMapTiles where
  apiKey : String
  session : Option SessionResponse
deriving DecidableEq, Repr

/-- The result `fetch` hands back to the client: either a transport
failure (the promise rejected, carrying the rejection's message) or a
response with its `ok` flag, `statusText`, and the value `response.json()`
resolves to, already parsed as `α` (the TS code casts the parsed JSON with
`as`, performing no validation). -/
inductive FetchResult (α : Type) where
  | failed (msg : String)
  | response (ok : Bool) (statusText : String) (body : α)
deriving DecidableEq, Repr

/-- The message of the error thrown when a session-requiring method is
called with no active session (`src/tiles.ts`). -/
def noSessionMessage : String := "Session not created. Call createSession() first."

/-- `GoogleMapTiles.createSession` (`src/tiles.ts` lines 100-116).  Issues
the POST (whose outcome is the `fetchResult` argument); on a non-ok
response throws `Error creating session: <statusText>`; otherwise stores
the parsed body as the active session and returns it.  The returned pair
is (result, updated client state). -/
def createSession (client : GoogleMapTiles) (_request : SessionOptions)
    (fetchResult : FetchResult SessionResponse) :
    Except String SessionResponse × GoogleMapTiles :=
  match fetchResult with
  | .failed msg => (.error msg, client)
  | .response ok statusText body =>
    if !ok then
      (.error ("Error creating session: " ++ statusText), client)
    else
      (.ok body, { client with session := some body })

/-- One viewport GET request as issued by `getViewport`: the query
parameters embedded in the request URL. -/
structure ViewportRequest where
  sessionToken : String
  key : String
  zoom : ℚ
  north : ℚ
  south : ℚ
  east : ℚ
  west : ℚ
deriving DecidableEq, Repr

/-- `GoogleMapTiles.getViewport` (`src/tiles.ts` lines 128-150).  Throws
`noSessionMessage` before any request when no session is active; otherwise
issues one GET (recorded in the returned request list) and either throws
`Error fetching viewport: <statusText>` on a non-ok response or returns
the parsed body. -/
def getViewport (client : GoogleMapTiles) (zoom north south east west : ℚ)
    (fetchResult : FetchResult ViewportResponse) :
    Except String ViewportResponse × List ViewportRequest :=
  match client.session with
  | none => (.error noSessionMessage, [])
  | some s =>
    let req : ViewportRequest :=
      { sessionToken := s.session, key := client.apiKey, zoom := zoom,
        north := north, south := south, east := east, west := west }
    match fetchResult with
    | .failed msg => (.error msg, [req])
    | .response ok statusText body =>
      if !ok then
        (.error ("Error fetching viewport: " ++ statusText), [req])
      else
        (.ok body, [req])

/-- `GoogleMapTiles.tileJSONUrl` (`src/tiles.ts` lines 153-160).  A pure
URL builder: takes no fetch result, hence issues no network request. -/
def tileJSONUrl (client : GoogleMapTiles) : Except String String :=
  match client.session with
  | none => .error noSessionMessage
  | some s =>
    .ok (API_BASE_URL ++ "/v1/2dtiles/\x7bz\x7d/\x7bx\x7d/\x7by\x7d?session="
      ++ s.session ++ "&key=" ++ client.apiKey)

/-- `GoogleMapTiles.tileUrl` (`src/tiles.ts` lines 170-176) with the
orientation argument explicit.  A pure URL builder: no network request. -/
def tileUrl (client : GoogleMapTiles) (z x y orient : Int) : Except String String :=
  match client.session with
  | none => .error noSessionMessage
  | some s =>
    .ok (API_BASE_URL ++ "/v1/2dtiles/" ++ toString z ++ "/" ++ toString x
      ++ "/" ++ toString y ++ "?session=" ++ s.session ++ "&key="
      ++ client.apiKey ++ "&orientation=" ++ toString orient)

/-- `tileUrl` with the TS default argument `orientation = 0` left to its
default. -/
def tileUrlDefault (client : GoogleMapTiles) (z x y : Int) : Except String String :=
  tileUrl client z x y 0

/-- `s` contains `pat` as a substring. -/
def StrContains (s pat : String) : Prop := ∃ pre post, s = pre ++ pat ++ post

/-! ### MapLibre plugin (`src/maplibre_plugin.ts`)

The MapLibre map is modelled by the state the plugin touches: the set of
layer ids, the set of source ids, and the `_controls` array.  Controls are
identified by a numeric id standing for JS object identity (`cid`); the
control state relevant to the plugin is its kind — a MapLibre
`AttributionControl` together with its `options.customAttribution` text, a
`GoogleLogoControl`, or anything else — and the position it was added at.
Map operations are modelled by their effect on this state: `removeLayer`,
`removeSource` and `removeControl` remove the named item and leave the map
unchanged when it is absent (MapLibre splices `_controls` only when the
control is found). -/

/-- JS `Math.round`: rounds to the nearest integer, halves toward
positive infinity. -/
def jsRound (q : ℚ) : Int := ⌊q + 1/2⌋

/-- The state of a MapLibre `AttributionControl` as the plugin uses it:
its `options.customAttribution` text (`none` until first assigned) and
the number of times its redraw `_updateAttributions()` has been
invoked. -/
structure AttributionControl where
  customAttribution : Option String
  redrawCount : Nat
deriving DecidableEq, Repr

/-- Geographic bounds as delivered by `map.getBounds()`. -/
structure Bounds where
  north : ℚ
  south : ℚ
  east : ℚ
  west : ℚ
deriving DecidableEq, Repr

/-- The outcome of one `updateAttribution` call: the attribution
control's state afterwards, the viewport requests issued, and the
messages passed to `console.warn` by the catch branch. -/
structure UpdateResult where
  control : AttributionControl
  requests : List ViewportRequest
  warnings : List String
deriving DecidableEq, Repr

/-- `GoogleMapTilesSource.updateAttribution` (`src/maplibre_plugin.ts`
lines 107-127).  Rounds the zoom, calls `getViewport`, and — only when
the returned copyright differs (`!==`) from the control's current
`customAttribution` — writes the text and invokes the redraw.  The whole
body sits in a `try`/`catch` whose catch branch only calls
`console.warn`, so the function never re-raises; this is modelled by a
total function whose catch branch records the warning and leaves the
control untouched. -/
def updateAttribution (client : GoogleMapTiles) (ctrl : AttributionControl)
    (bounds : Bounds) (zoom : ℚ) (fetchResult : FetchResult ViewportResponse) :
    UpdateResult :=
  let res := getViewport client ((jsRound zoom : Int) : ℚ)
    bounds.north bounds.south bounds.east bounds.west fetchResult
  match res.1 with
  | .error e =>
    { control := ctrl, requests := res.2,
      warnings := ["Failed to update attribution: " ++ e] }
  | .ok viewport =>
    if ctrl.customAttribution ≠ some viewport.copyright then
      { control := { customAttribution := some viewport.copyright,
                     redrawCount := ctrl.redrawCount + 1 },
        requests := res.2, warnings := [] }
    else
      { control := ctrl, requests := res.2, warnings := [] }

/-- What a map control is, as far as the plugin's `instanceof` checks and
option reads are concerned. -/
inductive ControlKind where
  | attribution (customAttribution : Option String)
  | googleLogo
  | other
deriving DecidableEq, Repr

/-- One entry of `map._controls`: the object's identity, its kind, and
the position it was added at. -/
structure MapControl where
  cid : Nat
  kind : ControlKind
  pos : String
deriving DecidableEq, Repr

/-- The MapLibre map state the plugin manipulates. -/
structure MLMap where
  layers : List String
  sources : List String
  controls : List MapControl
deriving DecidableEq, Repr

/-- Truthiness of `map.getLayer(id)`. -/
def MLMap.getLayer (m : MLMap) (id : String) : Bool := m.layers.contains id

/-- `map.removeLayer(id)`. -/
def MLMap.removeLayer (m : MLMap) (id : String) : MLMap :=
  { m with layers := m.layers.erase id }

/-- Truthiness of `map.getSource(id)`. -/
def MLMap.getSource (m : MLMap) (id : String) : Bool := m.sources.contains id

/-- `map.removeSource(id)`. -/
def MLMap.removeSource (m : MLMap) (id : String) : MLMap :=
  { m with sources := m.sources.erase id }

/-- `map.removeControl(control)` on `_controls`: splices out the first
occurrence of the control (found by identity); when the control is not
attached the array is left unchanged. -/
def removeControlList (cs : List MapControl) (cid : Nat) : List MapControl :=
  cs.eraseP (fun c => c.cid == cid)

/-- `map.removeControl` lifted to the map state. -/
def MLMap.removeControl (m : MLMap) (cid : Nat) : MLMap :=
  { m with controls := removeControlList m.controls cid }

/-- `map.addControl(control, position)`: pushes onto `_controls`. -/
def MLMap.addControl (m : MLMap) (c : MapControl) : MLMap :=
  { m with controls := m.controls ++ [c] }

/-- JS iteration (`for…of` in `removeFromMap`, `forEach` in
`setupAttribution`) over `map._controls` that removes the controls
satisfying `p` via `map.removeControl` while iterating.  Per ECMAScript
array iteration semantics the index advances by one per visit regardless
of the splice, so the element that slides into a removed element's slot
is skipped.  `fuel` bounds the number of visits (the array's length when
iteration starts); `i` is the current index; iteration stops once the
index falls outside the (possibly shrunk) array. -/
def forEachRemove (p : MapControl → Bool) : Nat → Nat → List MapControl → List MapControl
  | 0, _, cs => cs
  | Nat.succ fuel, i, cs =>
    match cs[i]? with
    | none => cs
    | some c =>
      forEachRemove p fuel (i + 1) (if p c then removeControlList cs c.cid else cs)

/-- `control instanceof GoogleLogoControl`. -/
def isGoogleLogoControl (c : MapControl) : Bool :=
  match c.kind with
  | .googleLogo => true
  | _ => false

/-- The default MapLibre attribution markup compared against in
`isDefaultAttributionControl` (`src/maplibre_plugin.ts` lines 172-176). -/
def defaultAttribution : String :=
  "<a href=\"https://maplibre.org/\" target=\"_blank\">MapLibre</a>"

/-- `control instanceof AttributionControl &&
isDefaultAttributionControl(control)`: an attribution control whose
`customAttribution` equals the default MapLibre markup. -/
def isDefaultAttributionCtrl (c : MapControl) : Bool :=
  match c.kind with
  | .attribution t => t == some defaultAttribution
  | _ => false

/-- The state of a `GoogleMapTilesSource` (`src/maplibre_plugin.ts`): its
tile client and its own attribution control (identity plus control
state). -/
structure GoogleMapTilesSource where
  client : GoogleMapTiles
  attributionCid : Nat
  attributionControl : AttributionControl
deriving DecidableEq, Repr

/-- Step 1 of `removeFromMap`: `if (map.getLayer("google-map-tiles"))
map.removeLayer("google-map-tiles")`. -/
def sweepLayer (m : MLMap) : MLMap :=
  if m.getLayer "google-map-tiles" then m.removeLayer "google-map-tiles" else m

/-- Step 2 of `removeFromMap`: `if (map.getSource("google-map-tiles"))
map.removeSource("google-map-tiles")`. -/
def sweepSource (m : MLMap) : MLMap :=
  if m.getSource "google-map-tiles" then m.removeSource "google-map-tiles" else m

/-- Step 4 of `removeFromMap`: the `for…of` loop over `map._controls`
removing every `GoogleLogoControl`. -/
def sweepLogos (m : MLMap) : MLMap :=
  { m with controls := forEachRemove isGoogleLogoControl m.controls.length 0 m.controls }

/-- `GoogleMapTilesSource.removeFromMap` (`src/maplibre_plugin.ts` lines
60-74): removes the `"google-map-tiles"` layer if present, then the
source if present, then its attribution control (step 3,
`map.removeControl(this.attributionControl)`), then — with a `for…of`
loop over `_controls` — every control that is a `GoogleLogoControl`. -/
def removeFromMap (self : GoogleMapTilesSource) (m : MLMap) : MLMap :=
  sweepLogos ((sweepSource (sweepLayer m)).removeControl self.attributionCid)

/-- `GoogleMapTilesSource.setupAttribution` (`src/maplibre_plugin.ts`
lines 89-105): a `forEach` over `_controls` removes each attribution
control carrying the default MapLibre text, then the manager's own
attribution control is added at `"bottom-right"`.  The
`map.on("sourcedata", …)` subscription is event wiring with no effect on
the map state modelled here. -/
def setupAttribution (self : GoogleMapTilesSource) (m : MLMap) : MLMap :=
  let swept := forEachRemove isDefaultAttributionCtrl m.controls.length 0 m.controls
  let m1 := { m with controls := swept }
  m1.addControl ⟨self.attributionCid,
    .attribution self.attributionControl.customAttribution, "bottom-right"⟩

/-! ### Logo control (`src/src/logo_control.ts`)

The DOM is modelled by the list of attached image-element ids; a fresh
numeric id stands for the element `document.createElement` returns. -/

/-- The document's attached elements. -/
structure Dom where
  attached : List Nat
deriving DecidableEq, Repr

/-- Attaching an element to the document (done by the map with the
element `onAdd` returns). -/
def Dom.attach (d : Dom) (e : Nat) : Dom := ⟨e :: d.attached⟩

/-- `element.remove()`: detaches the element from the document. -/
def Dom.detach (d : Dom) (e : Nat) : Dom := ⟨d.attached.erase e⟩

/-- The state of a `GoogleLogoControl` (`src/src/logo_control.ts`): the
single stored DOM element reference `img`, `undefined` until `onAdd`. -/
structure GoogleLogoControl where
  img : Option Nat
deriving DecidableEq, Repr

/-- `GoogleLogoControl.onAdd`: creates the image element (the fresh id
`elemId`), stores it in `img`, and returns it for the map to attach. -/
def GoogleLogoControl.onAdd (_c : GoogleLogoControl) (elemId : Nat) :
    GoogleLogoControl × Nat :=
  (⟨some elemId⟩, elemId)

/-- `GoogleLogoControl.onRemove` (`src/src/logo_control.ts` lines 22-37):
when an image element is stored, detaches it from the document and clears
the stored reference; otherwise does nothing. -/
def GoogleLogoControl.onRemove (c : GoogleLogoControl) (d : Dom) :
    GoogleLogoControl × Dom :=
  match c.img with
  | some e => (⟨none⟩, d.detach e)
  | none => (c, d)

/-- The URL produced for the tile request of the session-token /
API-key / coordinate combination exercised by `tiles_test.ts`. -/
def mockTileUrl : String :=
  "https://tile.googleapis.com/v1/2dtiles/15/6294/13288?session=mock-session-token&key=test-api-key&orientation=0"

end GoogleMapTilesLib

namespace GoogleMapTilesLib

/-- C1: with no active session (`session = none`), `getViewport`,
`tileJSONUrl` and `tileUrl` all fail with the NoActiveSession error
message, and `getViewport` issues no network request (empty request list;
`tileJSONUrl` and `tileUrl` are pure URL builders that take no fetch
result at all). -/
theorem noSession_fails_without_request (key : String)
    (fr : FetchResult ViewportResponse) (zoom n s e w : ℚ)
    (z x y orient : Int) :
    getViewport ⟨key, none⟩ zoom n s e w fr = (.error noSessionMessage, []) ∧
    tileJSONUrl ⟨key, none⟩ = .error noSessionMessage ∧
    tileUrl ⟨key, none⟩ z x y orient = .error noSessionMessage :=
  ⟨rfl, rfl, rfl⟩

/-- C2: for every client state, session options and ok (2xx) response
with parsed body `body`, `createSession` stores `body` verbatim as the
active session — replacing whatever session the client held before — and
returns the same `body` verbatim. -/
theorem createSession_success_stores_verbatim (client : GoogleMapTiles)
    (req : SessionOptions) (st : String) (body : SessionResponse) :
    createSession client req (.response true st body)
      = (.ok body, { client with session := some body }) :=
  rfl

/-- C5: for a client with API key `"test-api-key"` and an active session
whose token is `"mock-session-token"` (the other session fields being
arbitrary), `tileUrl(15, 6294, 13288)` with the orientation argument left
to its default produces a URL containing `key=test-api-key`,
`session=mock-session-token`, the path segment `/15/6294/13288`, and
`orientation=0`. -/
theorem tileUrl_mock_contains (expiry fmt : String) (tw th : Nat) :
    tileUrlDefault ⟨"test-api-key", some ⟨"mock-session-token", expiry, tw, th, fmt⟩⟩
        15 6294 13288 = .ok mockTileUrl ∧
    StrContains mockTileUrl "key=test-api-key" ∧
    StrContains mockTileUrl "session=mock-session-token" ∧
    StrContains mockTileUrl "/15/6294/13288" ∧
    StrContains mockTileUrl "orientation=0" :=
  ⟨rfl,
   ⟨"https://tile.googleapis.com/v1/2dtiles/15/6294/13288?session=mock-session-token&",
    "&orientation=0", rfl⟩,
   ⟨"https://tile.googleapis.com/v1/2dtiles/15/6294/13288?",
    "&key=test-api-key&orientation=0", rfl⟩,
   ⟨"https://tile.googleapis.com/v1/2dtiles",
    "?session=mock-session-token&key=test-api-key&orientation=0", rfl⟩,
   ⟨"https://tile.googleapis.com/v1/2dtiles/15/6294/13288?session=mock-session-token&key=test-api-key&",
    "", rfl⟩⟩

/-- C6: on every non-2xx response, `createSession` fails with a message
containing `"Error creating session"` and the server's status text, and
`getViewport` (with a session active) fails with a message containing
`"Error fetching viewport"` and the status text; neither succeeds. -/
theorem non2xx_error_messages (client : GoogleMapTiles) (req : SessionOptions)
    (stc stv : String) (bs : SessionResponse) (bv : ViewportResponse)
    (key : String) (s : SessionResponse) (zoom n so e w : ℚ) :
    createSession client req (.response false stc bs)
      = (.error ("Error creating session: " ++ stc), client) ∧
    (getViewport ⟨key, some s⟩ zoom n so e w (.response false stv bv)).1
      = .error ("Error fetching viewport: " ++ stv) ∧
    StrContains ("Error creating session: " ++ stc) "Error creating session" ∧
    StrContains ("Error creating session: " ++ stc) stc ∧
    StrContains ("Error fetching viewport: " ++ stv) "Error fetching viewport" ∧
    StrContains ("Error fetching viewport: " ++ stv) stv :=
  ⟨rfl, rfl,
   ⟨"", ": " ++ stc, by apply String.ext; simp [String.data_append]⟩,
   ⟨"Error creating session: ", "", by apply String.ext; simp [String.data_append]⟩,
   ⟨"", ": " ++ stv, by apply String.ext; simp [String.data_append]⟩,
   ⟨"Error fetching viewport: ", "", by apply String.ext; simp [String.data_append]⟩⟩

/-- C9: a failing `createSession` call — transport failure or non-2xx
response — leaves the client's stored session untouched: the whole client
state is returned unchanged, so a previously active session keeps serving
`tileJSONUrl` (and the other session-requiring methods) exactly as
before. -/
theorem createSession_failure_atomic (client : GoogleMapTiles)
    (req : SessionOptions) (e st : String) (bs : SessionResponse) :
    (createSession client req (.failed e)).2 = client ∧
    (createSession client req (.response false st bs)).2 = client ∧
    tileJSONUrl (createSession client req (.failed e)).2 = tileJSONUrl client ∧
    tileJSONUrl (createSession client req (.response false st bs)).2
      = tileJSONUrl client :=
  ⟨rfl, rfl, rfl, rfl⟩

/-- C4: an attribution refresh on a client with an active session and an
ok viewport response issues exactly one viewport request, whose zoom is
the zoom rounded to the nearest integer; the control's state is rewritten
(text set, redraw count bumped by exactly one) precisely when the
returned copyright differs from the current text, and is left untouched
otherwise; and a second refresh returning the same copyright leaves the
control — in particular its redraw count — unchanged. -/
theorem updateAttribution_redraw_iff_changed (key : String)
    (s : SessionResponse) (ctrl : AttributionControl) (b : Bounds)
    (zoom : ℚ) (st : String) (vp : ViewportResponse) :
    (updateAttribution ⟨key, some s⟩ ctrl b zoom (.response true st vp)).requests
      = [⟨s.session, key, ((jsRound zoom : Int) : ℚ), b.north, b.south, b.east, b.west⟩] ∧
    (updateAttribution ⟨key, some s⟩ ctrl b zoom (.response true st vp)).control
      = (if ctrl.customAttribution = some vp.copyright then ctrl
         else ⟨some vp.copyright, ctrl.redrawCount + 1⟩) ∧
    (updateAttribution ⟨key, some s⟩ ctrl b zoom
        (.response true st vp)).control.customAttribution = some vp.copyright ∧
    (updateAttribution ⟨key, some s⟩
        (updateAttribution ⟨key, some s⟩ ctrl b zoom (.response true st vp)).control
        b zoom (.response true st vp)).control
      = (updateAttribution ⟨key, some s⟩ ctrl b zoom (.response true st vp)).control := by
  by_cases h : ctrl.customAttribution = some vp.copyright
  · refine ⟨?_, ?_, ?_, ?_⟩ <;> simp [updateAttribution, getViewport, h]
  · refine ⟨?_, ?_, ?_, ?_⟩ <;> simp [updateAttribution, getViewport, h]

/-- C7: every failure inside `updateAttribution` — a transport failure, a
non-2xx viewport response, or the missing-session error — is caught: the
call returns normally, records one `console.warn` message carrying the
error, and leaves the attribution control (its displayed text and redraw
count) exactly as it was. -/
theorem updateAttribution_failure_swallowed (key : String)
    (s : SessionResponse) (ctrl : AttributionControl) (b : Bounds)
    (zoom : ℚ) (e st : String) (vp : ViewportResponse) :
    (updateAttribution ⟨key, some s⟩ ctrl b zoom (.failed e)).control = ctrl ∧
    (updateAttribution ⟨key, some s⟩ ctrl b zoom (.failed e)).warnings
      = ["Failed to update attribution: " ++ e] ∧
    (updateAttribution ⟨key, some s⟩ ctrl b zoom (.response false st vp)).control
      = ctrl ∧
    (updateAttribution ⟨key, some s⟩ ctrl b zoom (.response false st vp)).warnings
      = ["Failed to update attribution: " ++ ("Error fetching viewport: " ++ st)] ∧
    (updateAttribution ⟨key, none⟩ ctrl b zoom (.response true st vp)).control
      = ctrl ∧
    (updateAttribution ⟨key, none⟩ ctrl b zoom (.response true st vp)).warnings
      = ["Failed to update attribution: " ++ noSessionMessage] :=
  ⟨rfl, rfl, rfl, rfl, rfl, rfl⟩

/-- C8: `onRemove` after `onAdd` detaches the created image element and
clears the stored reference, and `onRemove` is idempotent: for any
control state and document, a second `onRemove` right after a first one
changes nothing (the control holds no state beyond the one element
reference, so the second call has nothing to remove). -/
theorem logo_onRemove_idempotent (c0 : GoogleLogoControl) (d : Dom)
    (e : Nat) (h : e ∉ d.attached) :
    ((GoogleLogoControl.onAdd c0 e).1.onRemove (d.attach e)).1.img = none ∧
    e ∉ ((GoogleLogoControl.onAdd c0 e).1.onRemove (d.attach e)).2.attached ∧
    (∀ c' d', (GoogleLogoControl.onRemove c' d').1.onRemove
        (GoogleLogoControl.onRemove c' d').2 = GoogleLogoControl.onRemove c' d') := by
  refine ⟨rfl, ?_, ?_⟩
  · simpa [GoogleLogoControl.onAdd, GoogleLogoControl.onRemove, Dom.attach,
      Dom.detach] using h
  · intro c' d'
    cases hc : c'.img with
    | none => simp [GoogleLogoControl.onRemove, hc]
    | some el => simp [GoogleLogoControl.onRemove, hc]

/-- Unfolding `forEachRemove` when the iteration index has left the
array. -/
theorem forEachRemove_succ_none (p : MapControl → Bool) (fuel i : Nat)
    (cs : List MapControl) (h : cs[i]? = none) :
    forEachRemove p (fuel + 1) i cs = cs := by
  conv_lhs => unfold forEachRemove
  rw [h]

/-- Unfolding one visit of `forEachRemove`. -/
theorem forEachRemove_succ_some (p : MapControl → Bool) (fuel i : Nat)
    (cs : List MapControl) (c : MapControl) (h : cs[i]? = some c) :
    forEachRemove p (fuel + 1) i cs
      = forEachRemove p fuel (i + 1) (if p c then removeControlList cs c.cid else cs) := by
  conv_lhs => unfold forEachRemove
  rw [h]

/-- A removal loop over controls none of which satisfies the predicate
leaves the array unchanged. -/
theorem forEachRemove_of_forall_not (p : MapControl → Bool) (fuel i : Nat)
    (cs : List MapControl) (h : ∀ c ∈ cs, p c = false) :
    forEachRemove p fuel i cs = cs := by
  induction fuel generalizing i with
  | zero => rfl
  | succ fuel ih =>
    cases hc : cs[i]? with
    | none => exact forEachRemove_succ_none p fuel i cs hc
    | some c =>
      rw [forEachRemove_succ_some p fuel i cs c hc,
        if_neg (by simp [h c (List.getElem?_mem hc)]), ih]

/-- When the controls have pairwise distinct identities and at most one of
them satisfies the predicate, the JS remove-while-iterating loop behaves
like a filter: it removes exactly the satisfying control.  (With two or
more satisfying controls this fails - the iteration skips the element
following a removal.)  `xs` is the already-visited prefix, `ys` the part
still to visit. -/
theorem forEachRemove_eq_filter (p : MapControl → Bool) (fuel : Nat)
    (xs ys : List MapControl)
    (hxs : ∀ c ∈ xs, p c = false)
    (hnd : ((xs ++ ys).map (fun c => c.cid)).Nodup)
    (h1 : (xs ++ ys).countP p ≤ 1)
    (hfuel : ys.length ≤ fuel) :
    forEachRemove p fuel xs.length (xs ++ ys) = xs ++ ys.filter (fun c => !p c) := by
  induction ys generalizing xs fuel with
  | nil =>
    cases fuel with
    | zero => simp [forEachRemove]
    | succ f =>
      rw [forEachRemove_succ_none p f xs.length _ (List.getElem?_eq_none (by simp))]
      simp
  | cons c ys ih =>
    cases fuel with
    | zero => simp at hfuel
    | succ f =>
      have hget : (xs ++ c :: ys)[xs.length]? = some c := by
        rw [List.getElem?_append_right (le_refl _)]
        simp
      rw [forEachRemove_succ_some p f xs.length _ c hget]
      by_cases hp : p c
      · have hxscid : ∀ b ∈ xs, ¬((fun x => x.cid == c.cid) b = true) := by
          intro b hb
          simp only [beq_iff_eq]
          intro hcid
          have hmem : b.cid ∈ xs.map (fun x => x.cid) := List.mem_map_of_mem _ hb
          rw [List.map_append, List.nodup_append] at hnd
          exact hnd.2.2 hmem (by simp [hcid])
        have herase : removeControlList (xs ++ c :: ys) c.cid = xs ++ ys := by
          unfold removeControlList
          rw [List.eraseP_append_right _ hxscid, List.eraseP_cons_of_pos (by simp)]
        rw [if_pos hp, herase]
        have hys0 : ∀ b ∈ ys, p b = false := by
          intro b hb
          by_contra hb'
          have hbt : p b = true := by revert hb'; cases p b <;> simp
          have h2 : 2 ≤ (xs ++ c :: ys).countP p := by
            rw [List.countP_append, List.countP_cons_of_pos p ys hp]
            have : 1 ≤ ys.countP p := List.countP_pos_iff.mpr ⟨b, hb, hbt⟩
            omega
          omega
        have hall : ∀ b ∈ xs ++ ys, p b = false := by
          intro b hb
          rcases List.mem_append.mp hb with h | h
          · exact hxs b h
          · exact hys0 b h
        rw [forEachRemove_of_forall_not p f (xs.length + 1) _ hall]
        have hfil : List.filter (fun x => !p x) (c :: ys) = ys := by
          rw [List.filter_cons_of_neg (by simp [hp]),
            List.filter_eq_self.mpr (fun a ha => by simp [hys0 a ha])]
        rw [hfil]
      · rw [if_neg hp]
        have hxs' : ∀ b ∈ xs ++ [c], p b = false := by
          intro b hb
          rcases List.mem_append.mp hb with h | h
          · exact hxs b h
          · simp at h; subst h; revert hp; cases p b <;> simp
        have hr := ih f (xs ++ [c]) hxs' (by simpa using hnd) (by simpa using h1)
          (by simp at hfuel ⊢; omega)
        simp only [List.append_assoc, List.singleton_append, List.length_append,
          List.length_singleton] at hr
        rw [hr, List.filter_cons_of_pos (by simp [hp])]

/-- C3: on a map on which nothing was ever added — the
`"google-map-tiles"` layer and source are absent, the manager's
attribution control is not attached, and no `GoogleLogoControl` is
attached — `removeFromMap` leaves the map exactly as it is: every
removal step finds its target absent and does nothing, and the function
(being total) raises nothing. -/
theorem removeFromMap_never_added_noop (self : GoogleMapTilesSource)
    (m : MLMap)
    (hl : "google-map-tiles" ∉ m.layers)
    (hs : "google-map-tiles" ∉ m.sources)
    (hattr : ∀ c ∈ m.controls, c.cid ≠ self.attributionCid)
    (hlogo : ∀ c ∈ m.controls, isGoogleLogoControl c = false) :
    removeFromMap self m = m := by
  unfold removeFromMap
  have e1 : sweepLayer m = m := by
    unfold sweepLayer
    rw [if_neg (by simp [MLMap.getLayer]; exact hl)]
  have e2 : sweepSource m = m := by
    unfold sweepSource
    rw [if_neg (by simp [MLMap.getSource]; exact hs)]
  have e3 : m.removeControl self.attributionCid = m := by
    unfold MLMap.removeControl removeControlList
    rw [List.eraseP_of_forall_not (fun c hc => by simp [hattr c hc])]
  rw [e1, e2, e3]
  unfold sweepLogos
  rw [forEachRemove_of_forall_not _ _ _ _ hlogo]

/-- Witness for C3 at a completely empty map. -/
theorem removeFromMap_never_added_noop_witness :
    ("google-map-tiles" ∉ (MLMap.mk [] [] []).layers) ∧
    ("google-map-tiles" ∉ (MLMap.mk [] [] []).sources) ∧
    (∀ c ∈ (MLMap.mk [] [] []).controls,
      c.cid ≠ (GoogleMapTilesSource.mk ⟨"k", none⟩ 0 ⟨none, 0⟩).attributionCid) ∧
    (∀ c ∈ (MLMap.mk [] [] []).controls, isGoogleLogoControl c = false) ∧
    removeFromMap (GoogleMapTilesSource.mk ⟨"k", none⟩ 0 ⟨none, 0⟩)
      (MLMap.mk [] [] []) = MLMap.mk [] [] [] :=
  ⟨by simp, by simp, by simp, by simp,
   removeFromMap_never_added_noop (GoogleMapTilesSource.mk ⟨"k", none⟩ 0 ⟨none, 0⟩)
     (MLMap.mk [] [] []) (by simp) (by simp) (by simp) (by simp)⟩

/-- Counterexample to C10 as stated: on a map holding two attribution
controls that both carry the default MapLibre text, the remove-while-
iterating `forEach` of `setupAttribution` skips the second one (removing
the first shifts it into the just-visited slot), so a default-text
attribution control is still attached afterwards. -/
theorem setupAttribution_counterexample :
    (MapControl.mk 1 (.attribution (some defaultAttribution)) "top-right")
      ∈ (setupAttribution (GoogleMapTilesSource.mk ⟨"k", none⟩ 2 ⟨none, 0⟩)
          (MLMap.mk [] []
            [⟨0, .attribution (some defaultAttribution), "top-right"⟩,
             ⟨1, .attribution (some defaultAttribution), "top-right"⟩])).controls ∧
    isDefaultAttributionCtrl
      (MapControl.mk 1 (.attribution (some defaultAttribution)) "top-right") = true := by
  constructor
  · have : (setupAttribution (GoogleMapTilesSource.mk ⟨"k", none⟩ 2 ⟨none, 0⟩)
        (MLMap.mk [] []
          [⟨0, .attribution (some defaultAttribution), "top-right"⟩,
           ⟨1, .attribution (some defaultAttribution), "top-right"⟩])).controls
      = [⟨1, .attribution (some defaultAttribution), "top-right"⟩,
         ⟨2, .attribution none, "bottom-right"⟩] := by decide
    rw [this]
    simp
  · decide

/-- C10 (amended): when the attached controls have pairwise distinct
identities and at most one of them is an attribution control carrying the
default MapLibre text, `setupAttribution` removes exactly that control
(leaving every other control, in particular attribution controls with any
other text, attached) and then adds the manager's own attribution control
at position `"bottom-right"`. -/
theorem setupAttribution_removes_default (self : GoogleMapTilesSource)
    (m : MLMap)
    (hnd : (m.controls.map (fun c => c.cid)).Nodup)
    (h1 : m.controls.countP isDefaultAttributionCtrl ≤ 1) :
    setupAttribution self m =
      { m with controls :=
          m.controls.filter (fun c => !isDefaultAttributionCtrl c)
            ++ [⟨self.attributionCid,
                 .attribution self.attributionControl.customAttribution,
                 "bottom-right"⟩] } := by
  unfold setupAttribution MLMap.addControl
  have h := forEachRemove_eq_filter isDefaultAttributionCtrl m.controls.length
    [] m.controls (by simp) (by simpa using hnd) (by simpa using h1) le_rfl
  simp only [List.nil_append, List.length_nil] at h
  rw [h]

/-- Witness for C10 (amended) at a map holding one default-text
attribution control and one foreign control. -/
theorem setupAttribution_removes_default_witness :
    ((MLMap.mk [] []
        [⟨5, .attribution (some defaultAttribution), "top-right"⟩,
         ⟨7, .other, "top-left"⟩]).controls.map (fun c => c.cid)).Nodup ∧
    ((MLMap.mk [] []
        [⟨5, .attribution (some defaultAttribution), "top-right"⟩,
         ⟨7, .other, "top-left"⟩]).controls.countP isDefaultAttributionCtrl ≤ 1) ∧
    setupAttribution (GoogleMapTilesSource.mk ⟨"k", none⟩ 2 ⟨none, 0⟩)
      (MLMap.mk [] []
        [⟨5, .attribution (some defaultAttribution), "top-right"⟩,
         ⟨7, .other, "top-left"⟩])
      = { MLMap.mk [] []
            [⟨5, .attribution (some defaultAttribution), "top-right"⟩,
             ⟨7, .other, "top-left"⟩] with
          controls :=
            (MLMap.mk [] []
              [⟨5, .attribution (some defaultAttribution), "top-right"⟩,
               ⟨7, .other, "top-left"⟩]).controls.filter
                (fun c => !isDefaultAttributionCtrl c)
              ++ [⟨2, .attribution none, "bottom-right"⟩] } :=
  ⟨by decide, by decide,
   setupAttribution_removes_default (GoogleMapTilesSource.mk ⟨"k", none⟩ 2 ⟨none, 0⟩)
     (MLMap.mk [] []
       [⟨5, .attribution (some defaultAttribution), "top-right"⟩,
        ⟨7, .other, "top-left"⟩]) (by decide) (by decide)⟩

/-- Witness for C8 at a fresh control, an empty document and element id
`0`. -/
theorem logo_onRemove_idempotent_witness :
    ((0 : Nat) ∉ (Dom.mk []).attached) ∧
    (((GoogleLogoControl.onAdd ⟨none⟩ 0).1.onRemove ((Dom.mk []).attach 0)).1.img = none ∧
     (0 : Nat) ∉ ((GoogleLogoControl.onAdd ⟨none⟩ 0).1.onRemove ((Dom.mk []).attach 0)).2.attached ∧
     (∀ c' d', (GoogleLogoControl.onRemove c' d').1.onRemove
        (GoogleLogoControl.onRemove c' d').2 = GoogleLogoControl.onRemove c' d')) :=
  ⟨by simp, logo_onRemove_idempotent ⟨none⟩ ⟨[]⟩ 0 (by simp)⟩

end GoogleMapTilesLib
